import Mathlib

/-!
Verification of the big3 Python SDK scaffold (`src/cli/python-sdk/big3/agent/team.py`)
against its natural-language specification.

The source file defines five pydantic models (`Model`, `AgentConfig`, `TeamConfig`,
`CreateTeamResponse`, `AddAgentResponse`) and two client functions (`create_team`,
`add_agent`).  Both functions build an `Authorization` header from the optional
`api_key` (Python truthiness: `if api_key:`) and then unconditionally raise
`NotImplementedError`, embedding the HTTP call they would have made as text in the
error message; no network request is ever issued.

The embedding below models:
  - JSON values (`Json`) and keyword-argument maps (`List (String × Json)`), the
    inputs to pydantic model construction;
  - pydantic field validation for each model as written in the source: every
    required field is a bare type annotation with `Field(...)` (no constraints
    beyond the type), every optional field is `Optional[T] = Field(None, ...)`
    or `= None`;
  - `model_dump` for `TeamConfig` (field-ordered dict, `None` for absent optionals);
  - the two client functions as pure functions returning a `CallTrace`: the headers
    dict they construct, the list of HTTP requests they issue (always empty in the
    scaffold), and the outcome (always a raised `NotImplementedError`).
-/

/-- A JSON value, the shape of pydantic field inputs (`Any` in the source). -/
inductive Json where
  | null : Json
  | bool : Bool → Json
  | num : Int → Json
  | str : String → Json
  | arr : List Json → Json
  | obj : List (String × Json) → Json

/-- A pydantic validation failure: a required field is missing, or a field value
has the wrong shape for its annotation. -/
inductive ValidationError where
  | missing (field : String)
  | wrongShape (field : String)

/-- `Model` from the source: `provider: str`, `name: str`,
`version: Optional[str] = None`, `parameters: Optional[Dict[str, Any]] = None`. -/
structure Model where
  provider : String
  name : String
  version : Option String
  parameters : Option (List (String × Json))

/-- `AgentConfig` from the source: `name: str`, `model: Model`,
`instructions: Optional[str] = None`. -/
structure AgentConfig where
  name : String
  model : Model
  instructions : Option String

/-- `TeamConfig` from the source: `name: str`, `description: Optional[str] = None`. -/
structure TeamConfig where
  name : String
  description : Option String

/-- `CreateTeamResponse` from the source: `id: str`, `name: str`,
`created_at: Optional[str] = None`. -/
structure CreateTeamResponse where
  id : String
  name : String
  created_at : Option String

/-- `AddAgentResponse` from the source: `id: str`. -/
structure AddAgentResponse where
  id : String

/-- Look a field up in a keyword-argument map (first occurrence, as in a Python
dict built from keyword arguments). -/
def lookupField (kw : List (String × Json)) (k : String) : Option Json :=
  match kw.find? (fun p => p.1 == k) with
  | some p => some p.2
  | none => none

/-- Validate a required `str` field: absent fails with `missing`, a non-string
value fails with `wrongShape`, a string is accepted (pydantic puts no further
constraint on the source's bare `str` annotations). -/
def reqStrField (kw : List (String × Json)) (k : String) : Except ValidationError String :=
  match lookupField kw k with
  | none => Except.error (ValidationError.missing k)
  | some (Json.str s) => Except.ok s
  | some _ => Except.error (ValidationError.wrongShape k)

/-- Validate an `Optional[str]` field with default `None`: absent or `None`
yields `none`, a string yields `some`, anything else fails with `wrongShape`. -/
def optStrField (kw : List (String × Json)) (k : String) :
    Except ValidationError (Option String) :=
  match lookupField kw k with
  | none => Except.ok none
  | some Json.null => Except.ok none
  | some (Json.str s) => Except.ok (some s)
  | some _ => Except.error (ValidationError.wrongShape k)

/-- Validate an `Optional[Dict[str, Any]]` field with default `None`. -/
def optDictField (kw : List (String × Json)) (k : String) :
    Except ValidationError (Option (List (String × Json))) :=
  match lookupField kw k with
  | none => Except.ok none
  | some Json.null => Except.ok none
  | some (Json.obj fs) => Except.ok (some fs)
  | some _ => Except.error (ValidationError.wrongShape k)

/-- Constructing a `Model` from keyword arguments, per the source's annotations.
Fields are validated in declaration order; note that nothing restricts
`provider` to a vendor set — the `openai|anthropic|google` list appears only in
the `Field(description=...)` text, which pydantic does not enforce. -/
def validateModel (kw : List (String × Json)) : Except ValidationError Model :=
  match reqStrField kw "provider" with
  | Except.error e => Except.error e
  | Except.ok provider =>
    match reqStrField kw "name" with
    | Except.error e => Except.error e
    | Except.ok name =>
      match optStrField kw "version" with
      | Except.error e => Except.error e
      | Except.ok version =>
        match optDictField kw "parameters" with
        | Except.error e => Except.error e
        | Except.ok parameters =>
            Except.ok { provider := provider, name := name,
                        version := version, parameters := parameters }

/-- Validate the required `model: Model` field of `AgentConfig`: absent fails
with `missing`, a non-object fails with `wrongShape`, an object is validated as
a `Model`. -/
def reqModelField (kw : List (String × Json)) (k : String) : Except ValidationError Model :=
  match lookupField kw k with
  | none => Except.error (ValidationError.missing k)
  | some (Json.obj fs) => validateModel fs
  | some _ => Except.error (ValidationError.wrongShape k)

/-- Constructing an `AgentConfig` from keyword arguments, per the source's
annotations.  `name` is a bare `str` — pydantic accepts the empty string. -/
def validateAgentConfig (kw : List (String × Json)) : Except ValidationError AgentConfig :=
  match reqStrField kw "name" with
  | Except.error e => Except.error e
  | Except.ok name =>
    match reqModelField kw "model" with
    | Except.error e => Except.error e
    | Except.ok model =>
      match optStrField kw "instructions" with
      | Except.error e => Except.error e
      | Except.ok instructions =>
          Except.ok { name := name, model := model, instructions := instructions }

/-- Constructing a `TeamConfig` from keyword arguments, per the source's
annotations. -/
def validateTeamConfig (kw : List (String × Json)) : Except ValidationError TeamConfig :=
  match reqStrField kw "name" with
  | Except.error e => Except.error e
  | Except.ok name =>
    match optStrField kw "description" with
    | Except.error e => Except.error e
    | Except.ok description =>
        Except.ok { name := name, description := description }

/-- `TeamConfig.model_dump()`: the field-ordered dict of the model's declared
fields, with `None` for an absent optional. -/
def TeamConfig.dumpFields (c : TeamConfig) : List (String × Json) :=
  [("name", Json.str c.name),
   ("description", match c.description with
                   | none => Json.null
                   | some d => Json.str d)]

/-- `TeamConfig.model_dump()` as a JSON object. -/
def TeamConfig.model_dump (c : TeamConfig) : Json :=
  Json.obj c.dumpFields

/-- An HTTP request, as `requests.post` would receive it. -/
structure HttpRequest where
  method : String
  url : String
  headers : List (String × String)
  body : Json

/-- A raised Python exception.  The scaffold raises only `NotImplementedError`;
no other exception type (`NotFoundError`, `ApiError`, `DecodeError`,
`TransportError`) is defined or raised anywhere in the source. -/
inductive PyError where
  | notImplementedError (msg : String)

/-- The observable behaviour of one client-function call: the `headers` dict the
function constructs, the network requests it issues, and its outcome (a returned
identifier string or a raised exception). -/
structure CallTrace where
  headersBuilt : List (String × String)
  requestsIssued : List HttpRequest
  result : Except PyError String

/-- The header construction shared by both functions:
`headers = {}; if api_key: headers["Authorization"] = f"Bearer {api_key}"`.
Python truthiness — `None` and the empty string are both falsy. -/
def buildHeaders (api_key : Option String) : List (String × String) :=
  match api_key with
  | none => []
  | some k => if k = "" then [] else [("Authorization", "Bearer " ++ k)]

/-- The message of the `NotImplementedError` raised by `create_team`: an f-string
interpolating `base_url`, with the apostrophes of the embedded source text. -/
def createTeamStubMsg (base_url : String) : String :=
  "Python SDK scaffold only. Implement:" ++
    "\nrequests.post(f\x27" ++ base_url ++
    "/teams\x27, json=config.model_dump(), headers=headers)"

/-- The message of the `NotImplementedError` raised by `add_agent`.  The source
writes `{{team_id}}` in the f-string, so `team_id` is NOT interpolated: the
message contains the literal text `\x7bteam_id\x7d`. -/
def addAgentStubMsg (base_url : String) : String :=
  "Python SDK scaffold only. Implement:" ++
    "\nrequests.post(f\x27" ++ base_url ++
    "/teams/\x7bteam_id\x7d/agents\x27, json=config.model_dump(), headers=headers)"

/-- `create_team(base_url, config, api_key)` as written: builds the headers dict,
issues no request, and raises `NotImplementedError` with the intended POST as
message text. -/
def create_team (base_url : String) (config : TeamConfig) (api_key : Option String) :
    CallTrace :=
  { headersBuilt := buildHeaders api_key
    requestsIssued := []
    result := Except.error (PyError.notImplementedError (createTeamStubMsg base_url)) }

/-- `add_agent(base_url, team_id, config, api_key)` as written: builds the headers
dict, issues no request, and raises `NotImplementedError`. -/
def add_agent (base_url : String) (team_id : String) (config : AgentConfig)
    (api_key : Option String) : CallTrace :=
  { headersBuilt := buildHeaders api_key
    requestsIssued := []
    result := Except.error (PyError.notImplementedError (addAgentStubMsg base_url)) }

/-- `Except.isOk` as a plain boolean, to state success/failure of validation. -/
def exceptOk {ε α : Type} : Except ε α → Bool
  | Except.ok _ => true
  | Except.error _ => false

/-- A required `str` field is present and well-shaped. -/
def reqStrOk : Option Json → Bool
  | some (Json.str _) => true
  | _ => false

/-- An `Optional[str]` field is absent, `None`, or a string. -/
def optStrOk : Option Json → Bool
  | none => true
  | some Json.null => true
  | some (Json.str _) => true
  | _ => false

/-- An `Optional[Dict[str, Any]]` field is absent, `None`, or an object. -/
def optDictOk : Option Json → Bool
  | none => true
  | some Json.null => true
  | some (Json.obj _) => true
  | _ => false

/-- Every field of a `Model` keyword map is present and well-shaped as required. -/
def modelKwOk (kw : List (String × Json)) : Bool :=
  reqStrOk (lookupField kw "provider") && reqStrOk (lookupField kw "name") &&
    optStrOk (lookupField kw "version") && optDictOk (lookupField kw "parameters")

/-- The required `model` field is present and is a well-shaped `Model` object. -/
def reqModelOk : Option Json → Bool
  | some (Json.obj fs) => modelKwOk fs
  | _ => false

/-- Every field of an `AgentConfig` keyword map is present and well-shaped. -/
def agentKwOk (kw : List (String × Json)) : Bool :=
  reqStrOk (lookupField kw "name") && reqModelOk (lookupField kw "model") &&
    optStrOk (lookupField kw "instructions")

/-- Every field of a `TeamConfig` keyword map is present and well-shaped. -/
def teamKwOk (kw : List (String × Json)) : Bool :=
  reqStrOk (lookupField kw "name") && optStrOk (lookupField kw "description")

theorem exceptOk_false_iff {ε α : Type} (x : Except ε α) :
    (∃ e, x = Except.error e) ↔ exceptOk x = false := by
  cases x <;> simp [exceptOk]

theorem exceptOk_true_iff {ε α : Type} (x : Except ε α) :
    (∃ v, x = Except.ok v) ↔ exceptOk x = true := by
  cases x <;> simp [exceptOk]

theorem reqStrField_exceptOk (kw : List (String × Json)) (k : String) :
    exceptOk (reqStrField kw k) = reqStrOk (lookupField kw k) := by
  cases h : lookupField kw k with
  | none => simp [reqStrField, reqStrOk, h, exceptOk]
  | some j => cases j <;> simp [reqStrField, reqStrOk, h, exceptOk]

theorem optStrField_exceptOk (kw : List (String × Json)) (k : String) :
    exceptOk (optStrField kw k) = optStrOk (lookupField kw k) := by
  cases h : lookupField kw k with
  | none => simp [optStrField, optStrOk, h, exceptOk]
  | some j => cases j <;> simp [optStrField, optStrOk, h, exceptOk]

theorem optDictField_exceptOk (kw : List (String × Json)) (k : String) :
    exceptOk (optDictField kw k) = optDictOk (lookupField kw k) := by
  cases h : lookupField kw k with
  | none => simp [optDictField, optDictOk, h, exceptOk]
  | some j => cases j <;> simp [optDictField, optDictOk, h, exceptOk]

theorem validateModel_exceptOk (kw : List (String × Json)) :
    exceptOk (validateModel kw) = modelKwOk kw := by
  unfold validateModel modelKwOk
  rw [← reqStrField_exceptOk kw "provider", ← reqStrField_exceptOk kw "name",
    ← optStrField_exceptOk kw "version", ← optDictField_exceptOk kw "parameters"]
  cases reqStrField kw "provider" <;> cases reqStrField kw "name" <;>
    cases optStrField kw "version" <;> cases optDictField kw "parameters" <;> rfl

theorem reqModelField_exceptOk (kw : List (String × Json)) (k : String) :
    exceptOk (reqModelField kw k) = reqModelOk (lookupField kw k) := by
  cases h : lookupField kw k with
  | none => simp [reqModelField, reqModelOk, h, exceptOk]
  | some j =>
    cases j with
    | obj fs =>
      have hv : reqModelField kw k = validateModel fs := by
        unfold reqModelField
        rw [h]
      rw [hv, validateModel_exceptOk]
      rfl
    | null => simp [reqModelField, reqModelOk, h, exceptOk]
    | bool b => simp [reqModelField, reqModelOk, h, exceptOk]
    | num n => simp [reqModelField, reqModelOk, h, exceptOk]
    | str s => simp [reqModelField, reqModelOk, h, exceptOk]
    | arr xs => simp [reqModelField, reqModelOk, h, exceptOk]

theorem validateAgentConfig_exceptOk (kw : List (String × Json)) :
    exceptOk (validateAgentConfig kw) = agentKwOk kw := by
  unfold validateAgentConfig agentKwOk
  rw [← reqStrField_exceptOk kw "name", ← reqModelField_exceptOk kw "model",
    ← optStrField_exceptOk kw "instructions"]
  cases reqStrField kw "name" <;> cases reqModelField kw "model" <;>
    cases optStrField kw "instructions" <;> rfl

theorem validateTeamConfig_exceptOk (kw : List (String × Json)) :
    exceptOk (validateTeamConfig kw) = teamKwOk kw := by
  unfold validateTeamConfig teamKwOk
  rw [← reqStrField_exceptOk kw "name", ← optStrField_exceptOk kw "description"]
  cases reqStrField kw "name" <;> cases optStrField kw "description" <;> rfl

/-- C1: for every `base_url`, config and `api_key`, each of `create_team` and
`add_agent` raises `NotImplementedError` and never returns normally, and
neither function ever issues a network request. -/
theorem stub_functions_always_raise_and_never_request (base_url team_id : String)
    (tc : TeamConfig) (ac : AgentConfig) (api_key : Option String) :
    (∃ m, (create_team base_url tc api_key).result =
        Except.error (PyError.notImplementedError m)) ∧
    (create_team base_url tc api_key).requestsIssued = [] ∧
    (∃ m, (add_agent base_url team_id ac api_key).result =
        Except.error (PyError.notImplementedError m)) ∧
    (add_agent base_url team_id ac api_key).requestsIssued = [] :=
  ⟨⟨createTeamStubMsg base_url, rfl⟩, rfl, ⟨addAgentStubMsg base_url, rfl⟩, rfl⟩

/-- C2 counterexample: at the concrete input of the claim's scenario
(`base_url = "http://localhost:3000/api"`, `config = TeamConfig(name="Ops")`),
`create_team` raises `NotImplementedError`, issues no request at all (so no
server response, mocked or real, is ever observed), and does not return
`"team_123"`. -/
theorem create_team_mocked_201_returns_no_id :
    (create_team "http://localhost:3000/api"
        { name := "Ops", description := none } none).result =
      Except.error (PyError.notImplementedError
        (createTeamStubMsg "http://localhost:3000/api")) ∧
    (create_team "http://localhost:3000/api"
        { name := "Ops", description := none } none).requestsIssued = [] ∧
    (create_team "http://localhost:3000/api"
        { name := "Ops", description := none } none).result ≠
      Except.ok "team_123" :=
  ⟨rfl, rfl, fun h => nomatch h⟩

/-- C2 (amended): for every `base_url`, config and `api_key`, `create_team`
builds the headers dict and then raises `NotImplementedError` whose message
embeds the intended `POST {base_url}/teams` call as text; it issues no request
and returns no identifier. -/
theorem create_team_always_raises_stub (base_url : String) (config : TeamConfig)
    (api_key : Option String) :
    (create_team base_url config api_key).result =
      Except.error (PyError.notImplementedError (createTeamStubMsg base_url)) ∧
    (create_team base_url config api_key).requestsIssued = [] ∧
    (create_team base_url config api_key).headersBuilt = buildHeaders api_key :=
  ⟨rfl, rfl, rfl⟩

/-- C3 counterexample: with `provider` and `name` both present and well-shaped
strings but `version` a number, constructing a `Model` fails — so validation
failure is not equivalent to a required field being absent or ill-shaped. -/
theorem model_required_fields_ok_yet_validation_fails :
    reqStrOk (lookupField
      [("provider", Json.str "openai"), ("name", Json.str "gpt-4"),
       ("version", Json.num 2)] "provider") = true ∧
    reqStrOk (lookupField
      [("provider", Json.str "openai"), ("name", Json.str "gpt-4"),
       ("version", Json.num 2)] "name") = true ∧
    validateModel
      [("provider", Json.str "openai"), ("name", Json.str "gpt-4"),
       ("version", Json.num 2)] =
      Except.error (ValidationError.wrongShape "version") :=
  ⟨rfl, rfl, rfl⟩

/-- C3 (amended): constructing a `Model`, `AgentConfig`, or `TeamConfig` fails
with a `ValidationError` if and only if some required field is absent or
ill-shaped, or some optional field is present with the wrong shape; it succeeds
exactly when every required field is present and well-shaped and every present
optional field is well-shaped.  The validators are pure functions, so
construction has no side effects. -/
theorem validation_fails_iff_some_field_ill_shaped (kw : List (String × Json)) :
    ((∃ e, validateModel kw = Except.error e) ↔ modelKwOk kw = false) ∧
    ((∃ v, validateModel kw = Except.ok v) ↔ modelKwOk kw = true) ∧
    ((∃ e, validateAgentConfig kw = Except.error e) ↔ agentKwOk kw = false) ∧
    ((∃ v, validateAgentConfig kw = Except.ok v) ↔ agentKwOk kw = true) ∧
    ((∃ e, validateTeamConfig kw = Except.error e) ↔ teamKwOk kw = false) ∧
    ((∃ v, validateTeamConfig kw = Except.ok v) ↔ teamKwOk kw = true) := by
  refine ⟨?_, ?_, ?_, ?_, ?_, ?_⟩
  · rw [exceptOk_false_iff, validateModel_exceptOk]
  · rw [exceptOk_true_iff, validateModel_exceptOk]
  · rw [exceptOk_false_iff, validateAgentConfig_exceptOk]
  · rw [exceptOk_true_iff, validateAgentConfig_exceptOk]
  · rw [exceptOk_false_iff, validateTeamConfig_exceptOk]
  · rw [exceptOk_true_iff, validateTeamConfig_exceptOk]

/-- C4 counterexample: constructing an `AgentConfig` whose `name` is the empty
string (with a valid `model`) succeeds — the source's bare `str` annotation
carries no non-emptiness constraint. -/
theorem agent_empty_name_accepted :
    validateAgentConfig
      [("name", Json.str ""),
       ("model", Json.obj
          [("provider", Json.str "openai"), ("name", Json.str "gpt-4")])] =
      Except.ok
        { name := "",
          model := { provider := "openai", name := "gpt-4",
                     version := none, parameters := none },
          instructions := none } :=
  rfl

/-- C4 (amended): constructing an `AgentConfig` with the `model` field missing
fails with `ValidationError`; an empty `name`, by contrast, is accepted. -/
theorem agent_missing_model_fails (kw : List (String × Json))
    (h : lookupField kw "model" = none) :
    ∃ e, validateAgentConfig kw = Except.error e := by
  have hm : reqModelField kw "model" =
      Except.error (ValidationError.missing "model") := by
    unfold reqModelField
    rw [h]
  unfold validateAgentConfig
  cases hn : reqStrField kw "name" with
  | error e => exact ⟨e, rfl⟩
  | ok s =>
    refine ⟨ValidationError.missing "model", ?_⟩
    rw [hm]

/-- C4 witness: a concrete keyword map with no `model` field, on which
`agent_missing_model_fails` applies. -/
theorem agent_missing_model_fails_witness :
    lookupField [("name", Json.str "solo")] "model" = none ∧
    (∃ e, validateAgentConfig [("name", Json.str "solo")] = Except.error e) :=
  ⟨rfl, agent_missing_model_fails [("name", Json.str "solo")] rfl⟩

/-- C5 counterexample: constructing a `Model` with `provider = "mistral"` — not
one of openai, anthropic, google — succeeds. -/
theorem model_unknown_provider_accepted :
    validateModel [("provider", Json.str "mistral"), ("name", Json.str "large")] =
      Except.ok { provider := "mistral", name := "large",
                  version := none, parameters := none } :=
  rfl

/-- C5 (amended): `Model` accepts any string whatsoever as `provider`; the
`openai|anthropic|google` set appears only in the field's description text and
is not enforced. -/
theorem model_accepts_any_provider_string (p n : String) :
    validateModel [("provider", Json.str p), ("name", Json.str n)] =
      Except.ok { provider := p, name := n, version := none, parameters := none } :=
  rfl

/-- C6 counterexample: at a concrete input, `create_team` constructs no request
at all — with `api_key = None` and with `api_key = "X"` alike, the list of
requests is empty (the stub raises first), so the claim that it "constructs a
request" is false; only the headers dict is built. -/
theorem create_team_no_request_constructed :
    (create_team "http://localhost:3000/api"
        { name := "Ops", description := none } none).requestsIssued = [] ∧
    (create_team "http://localhost:3000/api"
        { name := "Ops", description := none } (some "X")).requestsIssued = [] ∧
    (create_team "http://localhost:3000/api"
        { name := "Ops", description := none } (some "X")).headersBuilt =
      [("Authorization", "Bearer X")] :=
  ⟨rfl, rfl, rfl⟩

/-- C6 (amended): for every `base_url`, config and `api_key`, `create_team`
constructs no request — it raises before one exists — and builds only the
headers dict: empty (no Authorization header) for `api_key = None`, and exactly
`Authorization: Bearer X` for `api_key = "X"`. -/
theorem create_team_builds_headers_but_no_request (base_url : String)
    (config : TeamConfig) (api_key : Option String) :
    (create_team base_url config api_key).requestsIssued = [] ∧
    (create_team base_url config none).headersBuilt = [] ∧
    (create_team base_url config (some "X")).headersBuilt =
      [("Authorization", "Bearer X")] :=
  ⟨rfl, rfl, rfl⟩

/-- C7 counterexample: calling `add_agent` with `team_id = "missing"` raises
`NotImplementedError` without issuing any request, so no HTTP 404 is ever
observed and no `NotFoundError` (a type absent from the code) is raised. -/
theorem add_agent_missing_team_no_not_found :
    (add_agent "http://localhost:3000/api" "missing"
        { name := "a",
          model := { provider := "openai", name := "gpt-4",
                     version := none, parameters := none },
          instructions := none } none).result =
      Except.error (PyError.notImplementedError
        (addAgentStubMsg "http://localhost:3000/api")) ∧
    (add_agent "http://localhost:3000/api" "missing"
        { name := "a",
          model := { provider := "openai", name := "gpt-4",
                     version := none, parameters := none },
          instructions := none } none).requestsIssued = [] :=
  ⟨rfl, rfl⟩

/-- C7 (amended): for every input, including an unknown `team_id`, `add_agent`
raises `NotImplementedError` and issues no request; the code defines no
`NotFoundError` or `ApiError` and never observes a server status. -/
theorem add_agent_raises_not_implemented (base_url team_id : String)
    (config : AgentConfig) (api_key : Option String) :
    (add_agent base_url team_id config api_key).result =
      Except.error (PyError.notImplementedError (addAgentStubMsg base_url)) ∧
    (add_agent base_url team_id config api_key).requestsIssued = [] :=
  ⟨rfl, rfl⟩

/-- C8 counterexample: at concrete inputs, `create_team` and `add_agent` raise
`NotImplementedError` with zero requests issued — no response body is ever
received or decoded, so neither function can fail with a `DecodeError` (a type
absent from the code). -/
theorem decode_error_never_raised :
    (create_team "http://api.example" { name := "t", description := none }
        none).result =
      Except.error (PyError.notImplementedError
        (createTeamStubMsg "http://api.example")) ∧
    (create_team "http://api.example" { name := "t", description := none }
        none).requestsIssued = [] ∧
    (add_agent "http://api.example" "t1"
        { name := "a",
          model := { provider := "p", name := "m",
                     version := none, parameters := none },
          instructions := none } none).result =
      Except.error (PyError.notImplementedError
        (addAgentStubMsg "http://api.example")) ∧
    (add_agent "http://api.example" "t1"
        { name := "a",
          model := { provider := "p", name := "m",
                     version := none, parameters := none },
          instructions := none } none).requestsIssued = [] :=
  ⟨rfl, rfl, rfl, rfl⟩

/-- C8 (amended): for every input, `create_team` and `add_agent` issue no
request and never return normally, so no response is ever decoded and no
identifier — null, placeholder or otherwise — is ever returned; the only
failure is `NotImplementedError`. -/
theorem no_response_ever_decoded (base_url team_id : String) (tc : TeamConfig)
    (ac : AgentConfig) (api_key : Option String) :
    (create_team base_url tc api_key).requestsIssued = [] ∧
    (add_agent base_url team_id ac api_key).requestsIssued = [] ∧
    (∀ s, (create_team base_url tc api_key).result ≠ Except.ok s) ∧
    (∀ s, (add_agent base_url team_id ac api_key).result ≠ Except.ok s) := by
  refine ⟨rfl, rfl, fun s h => ?_, fun s h => ?_⟩
  · exact nomatch h
  · exact nomatch h

/-- C9: for every `TeamConfig` value, `model_dump` produces a JSON object whose
keys are exactly the declared fields `name` and `description` in order, and
validating that object reconstructs a value equal to the original config, for
both the present and the absent optional `description`. -/
theorem teamconfig_dump_roundtrip (c : TeamConfig) :
    c.dumpFields.map Prod.fst = ["name", "description"] ∧
    validateTeamConfig c.dumpFields = Except.ok c := by
  cases c with
  | mk name description =>
    cases description with
    | none => exact ⟨rfl, rfl⟩
    | some d => exact ⟨rfl, rfl⟩

/-- C10: for both `create_team` and `add_agent`, `api_key = ""` is treated the
same as `api_key = None`: Python truthiness means no Authorization header is
built, so the two calls construct identical (empty) headers. -/
theorem empty_api_key_same_as_none (base_url team_id : String) (tc : TeamConfig)
    (ac : AgentConfig) :
    (create_team base_url tc (some "")).headersBuilt =
      (create_team base_url tc none).headersBuilt ∧
    (add_agent base_url team_id ac (some "")).headersBuilt =
      (add_agent base_url team_id ac none).headersBuilt ∧
    (create_team base_url tc (some "")).headersBuilt = [] ∧
    (add_agent base_url team_id ac (some "")).headersBuilt = [] :=
  ⟨rfl, rfl, rfl, rfl⟩
